import Mathlib

/-!
Shallow embedding of the four example scripts of the EnergyFlow examples
repository: `dnn_example.py`, `efp_example.py`, `test_cnn.py`, `test_efp.py`.

Each script is sequential glue code: it loads a dataset, optionally computes
features via the external `energyflow` library, splits the data, fits a model,
computes ROC metrics when scikit-learn imported successfully, and plots and
saves a figure when matplotlib imported successfully.

The embedding has three layers:

1. A *run model* per script, parameterised by the two optional-dependency
   booleans (`sk` for scikit-learn, `plt` for matplotlib) and by abstract ROC
   data returned by the external `sklearn.metrics.roc_curve` calls. It records
   the externally observable outcome of a run: how many AUC printouts happened,
   how many calls into sklearn were made, which curves were handed to
   `plt.plot`, which image files were saved, and whether the script crashed
   with a Python error (the plotting loops of `efp_example.py` and
   `test_efp.py` index `rocs[i]` over a fixed range and raise `IndexError`
   when `rocs` is empty).

2. A *statement trace* per script: the module-level flow of the script, with
   both optional dependencies available, abstracted to a list of step kinds
   (load, transform, feature computation, split, fit, evaluate, plot, plus a
   vocabulary of concurrency primitives that none of the scripts uses).

3. Direct models of the small in-script data manipulations: the jet mask
   `[x[x[:,0] > 0] for x in X]`, the column slice `X[:, :num_nsub]`, and the
   classifier constructor calls.
-/

/-- The result of one call of `sklearn.metrics.roc_curve`: the triple
`(fpr, tpr, thresholds)` of false-positive rates, true-positive rates and
thresholds, kept abstract as lists of rationals. -/
structure Roc where
  fpr : List ℚ
  tpr : List ℚ
  thr : List ℚ
deriving DecidableEq

/-- A plotted curve: the list of x coordinates and the list of y coordinates
handed to `plt.plot`. -/
abbrev Curve : Type := List ℚ × List ℚ

/-- The call `plt.plot(rocs[i][1], 1-rocs[i][0], ...)` common to all four
scripts: the x coordinates are the true-positive rates `rocs[i][1]` and the
y coordinates are `1 - fpr` for each false-positive rate in `rocs[i][0]`. -/
def plotRoc (r : Roc) : Curve := (r.tpr, r.fpr.map (fun v => 1 - v))

/-- Externally observable outcome of one script run: number of AUC values
printed, number of calls into sklearn (`roc_curve` and `roc_auc_score`),
curves handed to `plt.plot`, image files saved via `plt.savefig`, and the
Python error aborting the script, if any. -/
structure ScriptResult where
  aucPrints : Nat
  sklearnCalls : Nat
  curves : List Curve
  files : List String
  err : Option String
deriving DecidableEq

/-- A plotting loop that reads `rocs[i]` for each index `i` in the given index
list, as Python does: accessing a missing index raises `IndexError`, which
aborts the script. -/
def plotAtIndices (rocs : List Roc) : List Nat → Except String (List Curve)
  | [] => Except.ok []
  | i :: is =>
    match rocs.get? i with
    | some r =>
      match plotAtIndices rocs is with
      | Except.ok cs => Except.ok (plotRoc r :: cs)
      | Except.error e => Except.error e
    | none => Except.error "IndexError"

/-- One kind of module-level step of a script. The last three constructors are
the concurrency vocabulary (thread creation, process creation, asynchronous
calls); they are available in Python but no statement of the four scripts maps
to any of them. -/
inductive Step where
  | load
  | transform
  | computeFeatures
  | split
  | fit
  | evaluate
  | plot
  | spawnThread
  | spawnProcess
  | asyncCall
deriving DecidableEq

/-- Maps a step to its stage index in the linear flow
load (0) → transform (1) → split (2) → fit (3) → evaluate (4) → plot (5).
Feature computation is a transform of the loaded data, stage 1.
Concurrency steps have no stage. -/
def stageOf : Step → Option Nat
  | Step.load => some 0
  | Step.transform => some 1
  | Step.computeFeatures => some 1
  | Step.split => some 2
  | Step.fit => some 3
  | Step.evaluate => some 4
  | Step.plot => some 5
  | Step.spawnThread => none
  | Step.spawnProcess => none
  | Step.asyncCall => none

/-- Stage of the step at index `i` of a trace. -/
def stageAt (t : List Step) (i : Nat) : Option Nat := (t.get? i).bind stageOf

/-- Every step of the trace whose stage has a predecessor stage is preceded by
some step of that predecessor stage. -/
def predecessorOrdered (t : List Step) : Bool :=
  (List.range t.length).all fun i =>
    match stageAt t i with
    | some (s + 1) => (List.range i).any fun j => stageAt t j == some s
    | _ => true

/-- Index of the first step of stage `s` in the trace. -/
def stageFirstIdx (t : List Step) (s : Nat) : Option Nat :=
  t.findIdx? (fun st => stageOf st == some s)

/-- The trace realises the linear flow: all six stages occur, their first
occurrences appear in flow order, and no step occurs before some step of its
predecessor stage has occurred. -/
def flowOrdered (t : List Step) : Bool :=
  predecessorOrdered t &&
  ((List.range 5).all fun s =>
    match stageFirstIdx t s, stageFirstIdx t (s + 1) with
    | some a, some b => decide (a < b)
    | _, _ => false)

/-- `true` exactly on the concurrency vocabulary of `Step`. -/
def isConcurrencyStep : Step → Bool
  | Step.spawnThread => true
  | Step.spawnProcess => true
  | Step.asyncCall => true
  | _ => false

/-- There is a load step, a feature-computation step and a fit step, and the
first feature computation happens after the first load and before the first
fit. -/
def featureComputedBeforeFit (t : List Step) : Bool :=
  match t.findIdx? (· == Step.load), t.findIdx? (· == Step.computeFeatures),
      t.findIdx? (· == Step.fit) with
  | some il, some kc, some jf => decide (il < kc) && decide (kc < jf)
  | _, _, _ => false

/-- The classifier architectures constructed by the scripts. `other` stands
for any model type different from the three the scripts use. -/
inductive Classifier where
  | dnnArch (input_dim : Nat) (dense_sizes : List Nat)
  | cnnArch (filter_sizes num_filters dense_sizes : List Nat)
  | linearClassifier (linclass_type : String)
  | other (name : String)
deriving DecidableEq

/-- `true` exactly on `Classifier.other`. -/
def isOtherModel : Classifier → Bool
  | Classifier.other _ => true
  | _ => false

/-- `true` exactly on `Classifier.dnnArch`. -/
def isDnnArch : Classifier → Bool
  | Classifier.dnnArch _ _ => true
  | _ => false

/-- The column slice `X[:, :n]`: keep the first `n` columns of each row of the
feature matrix. -/
def sliceCols (n : Nat) (X : List (List ℚ)) : List (List ℚ) :=
  X.map (fun row => row.take n)

/-- The row mask `x[x[:,0] > 0]` applied to one jet: keep exactly the particle
rows whose first column is strictly positive. A jet is a list of particle
rows, each row a list of rationals; `headI` is the first column. -/
def maskJet (x : List (List ℚ)) : List (List ℚ) :=
  x.filter (fun row => decide (0 < row.headI))

/-- The list comprehension `masked_X = [x[x[:,0] > 0] for x in X]` of
`efp_example.py` line 51 and `test_efp.py` line 61. -/
def masked_X (X : List (List (List ℚ))) : List (List (List ℚ)) :=
  X.map maskJet

/-- The external `EFPSet.batch_compute`: one feature row per input jet,
computed elementwise by the energy-flow polynomial evaluator `efp`, which the
embedding keeps abstract. -/
def batch_compute (efp : List (List ℚ) → List ℚ) (jets : List (List (List ℚ))) :
    List (List ℚ) :=
  jets.map efp

/-- A concrete sample ROC triple used to instantiate witnesses. -/
def sampleRoc : Roc := ⟨[0, 1/2], [1/3, 1], [1, 0]⟩

namespace dnn_example

/-- `num_nsubs = [1, 2, 4, 8, 16, 32]`, line 43 of `dnn_example.py`. -/
def num_nsubs : List Nat := [1, 2, 4, 8, 16, 32]

/-- The input fed to the model at sweep step `i`: the column slice
`X[:, :num_nsubs[i]]` of line 67. -/
def sweepInput (X : List (List ℚ)) (i : Nat) : List (List ℚ) :=
  sliceCols (num_nsubs.getD i 0) X

/-- The sweep loop of lines 60-89: one iteration per entry of `num_nsubs`;
when sklearn imported, each iteration appends `roc_curve(...)` to `rocs`,
calls `roc_auc_score` and prints the AUC. Returns
(rocs, AUC printouts, sklearn calls). -/
def trainLoop (sk : Bool) (rocOf : Nat → Roc) : List Roc × Nat × Nat :=
  (List.range num_nsubs.length).foldl
    (fun acc i =>
      if sk then (acc.1 ++ [rocOf i], acc.2.1 + 1, acc.2.2 + 2) else acc)
    ([], 0, 0)

/-- The observable behaviour of `dnn_example.py` as a function of the two
optional dependencies: the train loop, then, when matplotlib imported, the
plot loop `for i in range(len(rocs))` of line 100 followed by
`plt.savefig("dnn_example.jpg")` on line 114. -/
def run (sk plt : Bool) (rocOf : Nat → Roc) : ScriptResult :=
  let t := trainLoop sk rocOf
  if plt then
    match plotAtIndices t.1 (List.range t.1.length) with
    | Except.ok cs => ⟨t.2.1, t.2.2, cs, ["dnn_example.jpg"], none⟩
    | Except.error e => ⟨t.2.1, t.2.2, [], [], some e⟩
  else ⟨t.2.1, t.2.2, [], [], none⟩

/-- Module-level statement trace of `dnn_example.py` with both optional
dependencies available: load `qg_nsubs` (line 50), `to_categorical` (line 53),
then per sweep entry the slice `X[:, :num_nsub]`, `data_split`, `dnn.fit`, and
the predict/ROC/AUC evaluation (lines 60-89), then the plot block
(lines 92-115). -/
def trace : List Step :=
  [Step.load, Step.transform] ++
  (List.range num_nsubs.length).foldr
    (fun _ acc => [Step.transform, Step.split, Step.fit, Step.evaluate] ++ acc)
    [] ++
  [Step.plot]

/-- The classifiers constructed by the sweep loop: line 63 builds
`DNN(input_dim=num_nsub, dense_sizes=(100, 100))` for each entry. -/
def classifiers : List Classifier :=
  num_nsubs.map (fun n => Classifier.dnnArch n [100, 100])

end dnn_example

namespace efp_example

/-- `dmax = 5`, line 34 of `efp_example.py`. -/
def dmax : Nat := 5

/-- The training loop of lines 57-83: one iteration per degree `d` in
`range(1, dmax+1)`; when sklearn imported, each iteration appends
`roc_curve(...)` to `rocs`, calls `roc_auc_score` and prints the AUC. -/
def trainLoop (sk : Bool) (rocOf : Nat → Roc) : List Roc × Nat × Nat :=
  (List.range dmax).foldl
    (fun acc d =>
      if sk then (acc.1 ++ [rocOf d], acc.2.1 + 1, acc.2.2 + 2) else acc)
    ([], 0, 0)

/-- The observable behaviour of `efp_example.py`: the train loop, then, when
matplotlib imported, the plot loop `for i,d in enumerate(range(1, dmax+1))`
of line 94 — which reads `rocs[i]` for `i = 0 .. dmax-1` regardless of how
many ROC curves were collected — followed by `plt.savefig("efp_example.jpg")`
on line 108. -/
def run (sk plt : Bool) (rocOf : Nat → Roc) : ScriptResult :=
  let t := trainLoop sk rocOf
  if plt then
    match plotAtIndices t.1 (List.range dmax) with
    | Except.ok cs => ⟨t.2.1, t.2.2, cs, ["efp_example.jpg"], none⟩
    | Except.error e => ⟨t.2.1, t.2.2, [], [], some e⟩
  else ⟨t.2.1, t.2.2, [], [], none⟩

/-- Module-level statement trace of `efp_example.py` with both optional
dependencies available: load `qg_jets` (line 44), the mask comprehension
(line 51), `batch_compute` (line 52), then per degree the selection
`X[:, efpset.sel(...)]`, `data_split`, `model.fit`, and the
predict/ROC/AUC evaluation (lines 57-83), then the plot block
(lines 86-109). -/
def trace : List Step :=
  [Step.load, Step.transform, Step.computeFeatures] ++
  (List.range dmax).foldr
    (fun _ acc => [Step.transform, Step.split, Step.fit, Step.evaluate] ++ acc)
    [] ++
  [Step.plot]

/-- The classifiers constructed by the loop: line 60 builds
`LinearClassifier(linclass_type='lda')` for each degree. -/
def classifiers : List Classifier :=
  (List.range dmax).map (fun _ => Classifier.linearClassifier "lda")

end efp_example

namespace test_efp

/-- `dmax = 4`, line 44 of `test_efp.py`. -/
def dmax : Nat := 4

/-- The training loop of lines 71-97: one iteration per degree `d` in
`range(1, dmax+1)`; when sklearn imported, each iteration appends
`roc_curve(...)` to `rocs`, calls `roc_auc_score` and prints the AUC. -/
def trainLoop (sk : Bool) (rocOf : Nat → Roc) : List Roc × Nat × Nat :=
  (List.range dmax).foldl
    (fun acc d =>
      if sk then (acc.1 ++ [rocOf d], acc.2.1 + 1, acc.2.2 + 2) else acc)
    ([], 0, 0)

/-- The observable behaviour of `test_efp.py`: the train loop, then, when
matplotlib imported, the plot loop `for i,d in enumerate(range(1, dmax+1))`
of line 108 — which reads `rocs[i]` for `i = 0 .. dmax-1` regardless of how
many ROC curves were collected — then `plt.show()` on line 122 followed by
`plt.savefig("cepc.jpg")` on line 123. -/
def run (sk plt : Bool) (rocOf : Nat → Roc) : ScriptResult :=
  let t := trainLoop sk rocOf
  if plt then
    match plotAtIndices t.1 (List.range dmax) with
    | Except.ok cs => ⟨t.2.1, t.2.2, cs, ["cepc.jpg"], none⟩
    | Except.error e => ⟨t.2.1, t.2.2, [], [], some e⟩
  else ⟨t.2.1, t.2.2, [], [], none⟩

/-- Module-level statement trace of `test_efp.py` with both optional
dependencies available: load `cepc` (line 54), the mask comprehension
(line 61), `batch_compute` (line 64), then per degree the selection
`X[:, efpset.sel(...)]`, `data_split`, `model.fit`, and the
predict/ROC/AUC evaluation (lines 71-97), then the plot block
(lines 100-123). -/
def trace : List Step :=
  [Step.load, Step.transform, Step.computeFeatures] ++
  (List.range dmax).foldr
    (fun _ acc => [Step.transform, Step.split, Step.fit, Step.evaluate] ++ acc)
    [] ++
  [Step.plot]

/-- The classifiers constructed by the loop: line 74 builds
`LinearClassifier(linclass_type='lda')` for each degree. -/
def classifiers : List Classifier :=
  (List.range dmax).map (fun _ => Classifier.linearClassifier "lda")

end test_efp

namespace test_cnn

/-- The observable behaviour of `test_cnn.py`: the whole metrics block of
lines 99-138 is guarded by `if roc_curve:`, and the plot block of
lines 109-138 is nested inside it under `if plt:`. When both imports
succeeded the script plots the CNN curve and the jet-mass and multiplicity
reference curves (two further `roc_curve` calls, lines 114-115 and 123-125)
and saves `test_cnn.jpg` on line 137; when sklearn imported but matplotlib
did not, only the AUC is computed and printed; when sklearn did not import,
nothing of the block runs. -/
def run (sk plt : Bool) (cnnRoc massRoc multRoc : Roc) : ScriptResult :=
  if sk then
    if plt then
      ⟨1, 4, [plotRoc cnnRoc, plotRoc massRoc, plotRoc multRoc],
        ["test_cnn.jpg"], none⟩
    else ⟨1, 2, [], [], none⟩
  else ⟨0, 0, [], [], none⟩

/-- Module-level statement trace of `test_cnn.py` with both optional
dependencies available: load `cepc` (line 56), `to_categorical` (line 59),
`pixelate` into jet images (line 64), `data_split` (line 70), the
`standardize(*zero_center(...))` preprocessing (line 75), `cnn.fit`
(line 89), the predict/ROC/AUC evaluation (lines 96-106), then the plot
block (lines 109-138). -/
def trace : List Step :=
  [Step.load, Step.transform, Step.computeFeatures, Step.split,
   Step.transform, Step.fit, Step.evaluate, Step.plot]

/-- The classifier constructed on line 86: `CNN(hps)` with
`filter_sizes = [8, 4, 4]`, `num_filters = [8, 8, 8]`,
`dense_sizes = [50]`. -/
def classifiers : List Classifier :=
  [Classifier.cnnArch [8, 4, 4] [8, 8, 8] [50]]

end test_cnn

/-!
## Claims
-/

/-- Claim C1, counterexample: the claim asserts that when scikit-learn is
unavailable but matplotlib is available every script's plotting stage
completes without error; but in `efp_example.py` and `test_efp.py` the
plotting loop reads `rocs[i]` for `i = 0 .. dmax-1` on the empty `rocs`
list and aborts with `IndexError`. -/
theorem c1_optional_dependency_counterexample :
    (efp_example.run false true (fun _ => sampleRoc)).err = some "IndexError"
  ∧ (test_efp.run false true (fun _ => sampleRoc)).err = some "IndexError" :=
  ⟨rfl, rfl⟩

/-- Claim C1, amended: `dnn_example.py` and `test_cnn.py` run to normal
completion under every combination of missing optional dependencies;
`efp_example.py` and `test_efp.py` run to completion except when matplotlib
is available and scikit-learn is not, in which case the plotting loop indexes
an empty `rocs` list and aborts with `IndexError`. -/
theorem c1_optional_dependency_fallback (sk plt : Bool) (rocOf : Nat → Roc)
    (cnnRoc massRoc multRoc : Roc) :
    (dnn_example.run sk plt rocOf).err = none
  ∧ (test_cnn.run sk plt cnnRoc massRoc multRoc).err = none
  ∧ (efp_example.run sk plt rocOf).err =
      (if plt && !sk then some "IndexError" else none)
  ∧ (test_efp.run sk plt rocOf).err =
      (if plt && !sk then some "IndexError" else none) := by
  cases sk <;> cases plt <;> exact ⟨rfl, rfl, rfl, rfl⟩

/-- Claim C2, counterexample: the claim asserts that each of the four scripts
applies an in-script feature-computation step to loaded jet-particle data
before training, but the trace of `dnn_example.py` has no feature-computation
step between its load and its first fit: the script loads precomputed
N-subjettiness values from `qg_nsubs` and feeds column slices of them
directly to the classifier. -/
theorem c2_feature_computation_counterexample :
    featureComputedBeforeFit dnn_example.trace = false := by decide

/-- Claim C2, amended: `efp_example.py` and `test_efp.py` compute Energy Flow
Polynomials and `test_cnn.py` pixelates jet images in-script, each after
loading and before the first fit; `dnn_example.py` instead loads a dataset of
precomputed N-subjettiness features and trains directly on column slices of
it, with no in-script feature-computation step. -/
theorem c2_feature_computation :
    featureComputedBeforeFit efp_example.trace = true
  ∧ featureComputedBeforeFit test_efp.trace = true
  ∧ featureComputedBeforeFit test_cnn.trace = true
  ∧ Step.computeFeatures ∉ dnn_example.trace
  ∧ Step.load ∈ dnn_example.trace
  ∧ Step.fit ∈ dnn_example.trace := by decide

/-- Claim C3: each script's module-level trace realises the linear flow
load → transform → split → fit → evaluate → plot: all six stages occur, their
first occurrences appear in flow order, and every step of a stage with a
predecessor stage is preceded by some step of that predecessor stage (the
train/evaluate segment repeats within the sweep loops, so the ordering is the
per-occurrence predecessor ordering). -/
theorem c3_linear_flow :
    flowOrdered dnn_example.trace = true
  ∧ flowOrdered efp_example.trace = true
  ∧ flowOrdered test_efp.trace = true
  ∧ flowOrdered test_cnn.trace = true := by decide

/-- Claim C4: for every combination of the optional dependencies, each script
writes at most one file, with the script's fixed image name; the image exists
only when matplotlib is available, and for `test_cnn.py` only when
scikit-learn is also available (for `efp_example.py` and `test_efp.py` the
crash of the plotting loop when scikit-learn is missing happens before
`savefig`, so no file is written there either). -/
theorem c4_file_outputs (sk plt : Bool) (rocOf : Nat → Roc)
    (cnnRoc massRoc multRoc : Roc) :
    (dnn_example.run sk plt rocOf).files =
      (if plt then ["dnn_example.jpg"] else [])
  ∧ (efp_example.run sk plt rocOf).files =
      (if plt && sk then ["efp_example.jpg"] else [])
  ∧ (test_efp.run sk plt rocOf).files =
      (if plt && sk then ["cepc.jpg"] else [])
  ∧ (test_cnn.run sk plt cnnRoc massRoc multRoc).files =
      (if sk && plt then ["test_cnn.jpg"] else []) := by
  cases sk <;> cases plt <;> exact ⟨rfl, rfl, rfl, rfl⟩

/-- Claim C5: `dnn_example.py` builds one dense network per sweep entry with
the entry as input dimension and hidden sizes (100, 100); `test_cnn.py`
builds exactly one CNN with the configured filter, channel and dense sizes;
`efp_example.py` and `test_efp.py` build only linear classifiers of type
`lda`; and no script constructs any other model type. -/
theorem c5_classifier_kinds :
    dnn_example.classifiers.all isDnnArch = true
  ∧ dnn_example.classifiers =
      [Classifier.dnnArch 1 [100, 100], Classifier.dnnArch 2 [100, 100],
       Classifier.dnnArch 4 [100, 100], Classifier.dnnArch 8 [100, 100],
       Classifier.dnnArch 16 [100, 100], Classifier.dnnArch 32 [100, 100]]
  ∧ test_cnn.classifiers = [Classifier.cnnArch [8, 4, 4] [8, 8, 8] [50]]
  ∧ efp_example.classifiers.all (· == Classifier.linearClassifier "lda") = true
  ∧ test_efp.classifiers.all (· == Classifier.linearClassifier "lda") = true
  ∧ (dnn_example.classifiers ++ efp_example.classifiers ++
      test_efp.classifiers ++ test_cnn.classifiers).all
        (fun c => !(isOtherModel c)) = true := by decide

/-- Claim C6: in every script the number of AUC printouts and the number of
calls into sklearn are positive exactly when the scikit-learn import
succeeded, and are zero — the metrics block is skipped entirely — when it
failed; when it succeeded, each script prints one AUC per trained model. -/
theorem c6_metrics_guard (sk plt : Bool) (rocOf : Nat → Roc)
    (cnnRoc massRoc multRoc : Roc) :
    (dnn_example.run sk plt rocOf).aucPrints = (if sk then 6 else 0)
  ∧ (dnn_example.run sk plt rocOf).sklearnCalls = (if sk then 12 else 0)
  ∧ (efp_example.run sk plt rocOf).aucPrints = (if sk then 5 else 0)
  ∧ (efp_example.run sk plt rocOf).sklearnCalls = (if sk then 10 else 0)
  ∧ (test_efp.run sk plt rocOf).aucPrints = (if sk then 4 else 0)
  ∧ (test_efp.run sk plt rocOf).sklearnCalls = (if sk then 8 else 0)
  ∧ (test_cnn.run sk plt cnnRoc massRoc multRoc).aucPrints =
      (if sk then 1 else 0)
  ∧ (test_cnn.run sk plt cnnRoc massRoc multRoc).sklearnCalls =
      (if sk then (if plt then 4 else 2) else 0) := by
  cases sk <;> cases plt <;> exact ⟨rfl, rfl, rfl, rfl, rfl, rfl, rfl, rfl⟩

/-- Claim C7: no statement of any of the four script traces is a concurrency
primitive: no thread creation, no process creation, no asynchronous call;
execution is a single synchronous sequence of steps. -/
theorem c7_no_concurrency :
    (dnn_example.trace ++ efp_example.trace ++ test_efp.trace ++
      test_cnn.trace).all (fun s => !(isConcurrencyStep s)) = true := by decide

/-- Claim C9: in every script, for every `roc_curve` result fed to the
plotting stage, the curve actually handed to `plt.plot` for it has as its x
coordinates exactly that result's true-positive-rate list and as its y
coordinates exactly `1 - fpr` applied entrywise to that same result's
false-positive-rate list: the i-th plotted curve of `dnn_example.py`,
`efp_example.py` and `test_efp.py` comes from the i-th `roc_curve` call of
the training loop, and the three curves of `test_cnn.py` come from the CNN,
jet-mass and multiplicity `roc_curve` calls, in that order. -/
theorem c9_plotted_points (rocOf : Nat → Roc) (cnnRoc massRoc multRoc : Roc) :
    (dnn_example.run true true rocOf).curves =
      [rocOf 0, rocOf 1, rocOf 2, rocOf 3, rocOf 4, rocOf 5].map
        (fun r => (r.tpr, r.fpr.map (fun v => 1 - v)))
  ∧ (efp_example.run true true rocOf).curves =
      [rocOf 0, rocOf 1, rocOf 2, rocOf 3, rocOf 4].map
        (fun r => (r.tpr, r.fpr.map (fun v => 1 - v)))
  ∧ (test_efp.run true true rocOf).curves =
      [rocOf 0, rocOf 1, rocOf 2, rocOf 3].map
        (fun r => (r.tpr, r.fpr.map (fun v => 1 - v)))
  ∧ (test_cnn.run true true cnnRoc massRoc multRoc).curves =
      [(cnnRoc.tpr, cnnRoc.fpr.map (fun v => 1 - v)),
       (massRoc.tpr, massRoc.fpr.map (fun v => 1 - v)),
       (multRoc.tpr, multRoc.fpr.map (fun v => 1 - v))] :=
  ⟨rfl, rfl, rfl, rfl⟩

/-- Claim C8. -/
theorem c8_mask_alignment (X : List (List (List ℚ))) (y : List ℚ)
    (efp : List (List ℚ) → List ℚ) (h : y.length = X.length) :
    (masked_X X).length = X.length
  ∧ (∀ x ∈ X, (maskJet x).Sublist x
      ∧ (∀ row ∈ maskJet x, 0 < row.headI)
      ∧ (∀ row ∈ x, 0 < row.headI → row ∈ maskJet x))
  ∧ (batch_compute efp (masked_X X)).length = y.length := by
  refine ⟨by simp [masked_X], ?_, ?_⟩
  · intro x _
    refine ⟨List.filter_sublist _, ?_, ?_⟩
    · intro row hr
      have hp := List.of_mem_filter hr
      simpa using hp
    · intro row hr hpos
      exact List.mem_filter.2 ⟨hr, by simpa using hpos⟩
  · simp [batch_compute, masked_X, h]

/-- Claim C8 witness. -/
theorem c8_mask_alignment_witness :
    (batch_compute (fun _ => [])
      (masked_X [[[1, 2], [-1, 3]], [[0], [2]]])).length =
      ([0, 1] : List ℚ).length :=
  (c8_mask_alignment [[[1, 2], [-1, 3]], [[0], [2]]] [0, 1] (fun _ => [])
    (by decide)).2.2

/-- The sweep list is strictly monotone entrywise. -/
theorem num_nsubs_mono : ∀ a b : Fin dnn_example.num_nsubs.length,
    a < b → dnn_example.num_nsubs.getD a 0 ≤ dnn_example.num_nsubs.getD b 0 := by
  decide

/-- Claim C10. -/
theorem c10_nsub_sweep (X : List (List ℚ)) (i j : Nat) (hij : i < j)
    (hj : j < dnn_example.num_nsubs.length) :
    List.Pairwise (· < ·) dnn_example.num_nsubs
  ∧ dnn_example.sweepInput X i =
      sliceCols (dnn_example.num_nsubs.getD i 0) (dnn_example.sweepInput X j)
  ∧ ∀ row ∈ X, row.take (dnn_example.num_nsubs.getD i 0) ⊆
      row.take (dnn_example.num_nsubs.getD j 0) := by
  have hle : dnn_example.num_nsubs.getD i 0 ≤ dnn_example.num_nsubs.getD j 0 :=
    num_nsubs_mono ⟨i, Nat.lt_trans hij hj⟩ ⟨j, hj⟩ hij
  refine ⟨by decide, ?_, ?_⟩
  · unfold dnn_example.sweepInput sliceCols
    rw [List.map_map]
    apply List.map_congr_left
    intro row _
    show row.take (dnn_example.num_nsubs.getD i 0) =
      (row.take (dnn_example.num_nsubs.getD j 0)).take
        (dnn_example.num_nsubs.getD i 0)
    rw [List.take_take, Nat.min_eq_left hle]
  · intro row _ v hv
    have h2 : row.take (dnn_example.num_nsubs.getD i 0) =
        (row.take (dnn_example.num_nsubs.getD j 0)).take
          (dnn_example.num_nsubs.getD i 0) := by
      rw [List.take_take, Nat.min_eq_left hle]
    exact List.take_subset _ _ (h2 ▸ hv)

/-- Claim C10 witness. -/
theorem c10_nsub_sweep_witness :
    List.Pairwise (· < ·) dnn_example.num_nsubs
  ∧ dnn_example.sweepInput [[1, 2, 3]] 0 =
      sliceCols (dnn_example.num_nsubs.getD 0 0)
        (dnn_example.sweepInput [[1, 2, 3]] 1)
  ∧ ∀ row ∈ ([[1, 2, 3]] : List (List ℚ)),
      row.take (dnn_example.num_nsubs.getD 0 0) ⊆
        row.take (dnn_example.num_nsubs.getD 1 0) :=
  c10_nsub_sweep [[1, 2, 3]] 0 1 (by decide) (by decide)
